import Mathlib

/-!
Verification development for the OpenObserve Grafana data-source plugin.

The definitions below are a shallow embedding of the plugin's query
dispatch/caching engine (`src/datasource.ts`), its request builder
(`features/query/queryBuilder.ts`, the `buildQuery` function) and its result
shaper (`features/log/queryResponseBuilder.ts`).  JavaScript runtime services
that live outside the repository (the `Date` parser, `convertTimeToMs`,
`getFieldType` and `logsErrorMessage` from `utils/zincutils`) are passed in as
explicit oracle parameters, matching their role as external collaborators.
JavaScript `undefined`/`null` values are modelled with `Option`.
-/

namespace OOPlugin

/-- A JavaScript value as it appears in result rows. -/
inductive JsVal where
  | num (n : Int)
  | str (s : String)
  | boolean (b : Bool)
  | null
  | undef
  deriving DecidableEq, Repr

/-- A result row: a JavaScript object with insertion-ordered keys. -/
abbrev Row := List (String × JsVal)

/-- Property lookup on a row object; a missing key yields `undefined`. -/
def lookupRow (r : Row) (k : String) : JsVal :=
  match r.find? (fun p => p.1 = k) with
  | some p => p.2
  | none => JsVal.undef

/-- The single-quote character (written via its code point to keep source
plain). -/
def sq : Char := Char.ofNat 39

/-- The double-quote character. -/
def dq : Char := Char.ofNat 34

mutual

/-- Decides the lookahead `(?:[^"']*"[^"']*"')*[^"']*$` of the operator-spacing
regexes in `buildQuery`: scanning outside a quoted block. -/
def quoteScan : List Char → Bool
  | [] => true
  | c :: rest =>
    if c = sq then false
    else if c = dq then quoteScanIn rest
    else quoteScan rest

/-- Lookahead scanning inside a `"` block: the block must close with a double
quote immediately followed by a single quote (`"'`), exactly as the source
regex demands. -/
def quoteScanIn : List Char → Bool
  | [] => false
  | c :: rest =>
    if c = sq then false
    else if c = dq then
      match rest with
      | [] => false
      | d :: rest2 => if d = sq then quoteScan rest2 else false
    else quoteScanIn rest

end

/-- The helper `stripPre p s` removes the pattern `p` from the front of `s` when it is a
prefix, reporting the remaining suffix. -/
def stripPre : List Char → List Char → Option (List Char)
  | [], s => some s
  | _ :: _, [] => none
  | p :: ps, c :: cs => if p = c then stripPre ps cs else none

/-- One global-replace pass of a literal pattern guarded by the quote
lookahead, mirroring `String.prototype.replace` with a `g`-flagged regex
`pat(?=lookahead)`: matches are found left to right and the replacement text is
not rescanned. -/
def replacePassGo (pat rep : List Char) : Nat → List Char → List Char
  | 0, rest => rest
  | _ + 1, [] => []
  | fuel + 1, c :: rest =>
    match stripPre pat (c :: rest) with
    | some suffixRest =>
      if quoteScan suffixRest then rep ++ replacePassGo pat rep fuel suffixRest
      else c :: replacePassGo pat rep fuel rest
    | none => c :: replacePassGo pat rep fuel rest

/-- Entry point of a replace pass (the fuel is the input length, enough since
every step consumes at least one character). -/
def replacePass (pat rep s : List Char) : List Char :=
  replacePassGo pat rep s.length s

/-- The seven operator-spacing passes of `buildQuery`, in source order:
`=`, `>`, `<` get a space inserted before them, then `!=`, `! =`, `< =`, `> =`
are rewritten to ` !=`, ` !=`, ` <=`, ` >=`. -/
def operatorPasses (s : List Char) : List Char :=
  let s1 := replacePass "=".toList " =".toList s
  let s2 := replacePass ">".toList " >".toList s1
  let s3 := replacePass "<".toList " <".toList s2
  let s4 := replacePass "!=".toList " !=".toList s3
  let s5 := replacePass "! =".toList " !=".toList s4
  let s6 := replacePass "< =".toList " <=".toList s5
  let s7 := replacePass "> =".toList " >=".toList s6
  s7

/-- JavaScript `split(' ')`: split on every single space, keeping empty
tokens. -/
def splitSp : List Char → List (List Char)
  | [] => [[]]
  | c :: rest =>
    if c = ' ' then [] :: splitSp rest
    else
      match splitSp rest with
      | t :: ts => (c :: t) :: ts
      | [] => [[c]]

/-- JavaScript `join(' ')`. -/
def joinSp (ts : List (List Char)) : List Char :=
  List.intercalate [' '] ts

/-- One known stream field: a column name and its semantic type tag. -/
structure StreamField where
  name : String
  ftype : String
  deriving DecidableEq, Repr

/-- The field-quoting loop of `buildQuery`: for each stream field, every token
exactly equal to the field name has its double quotes removed and is wrapped in
double quotes. -/
def quoteFieldTokens (fields : List StreamField) (tokens : List (List Char)) :
    List (List Char) :=
  fields.foldl
    (fun ts f =>
      ts.map (fun t =>
        if t = f.name.toList then dq :: (t.filter (fun c => ¬ c = dq)) ++ [dq]
        else t))
    tokens

/-- JavaScript `String.replace` with a plain-string pattern: replaces the first
occurrence only. -/
def replaceFirstGo (pat rep : List Char) : Nat → List Char → List Char
  | 0, rest => rest
  | _ + 1, [] => []
  | fuel + 1, c :: rest =>
    match stripPre pat (c :: rest) with
    | some suffixRest => rep ++ suffixRest
    | none => c :: replaceFirstGo pat rep fuel rest

/-- Entry point of first-occurrence replacement. -/
def replaceFirst (pat rep s : List Char) : List Char :=
  replaceFirstGo pat rep s.length s

/-- A query target (`MyQuery` in `types.ts`), as used by `buildQuery` and the
dispatch engine. -/
structure MyQuery where
  refId : String
  query : Option String
  sqlMode : Bool
  stream : String
  displayMode : Option String
  organization : String
  deriving DecidableEq, Repr

/-- The normalized time range handed to the builder. -/
structure TimeRange where
  startTimeInMicro : Int
  endTimeInMirco : Int
  deriving DecidableEq, Repr

/-- The `query` payload of a backend request built by `buildQuery`.  `size` and
`sql_mode` are optional because the source deletes / conditionally sets them;
`sql` is optional because native mode copies `queryData.query`, which may be
`undefined`. -/
structure SqlQuery where
  sql : Option String
  start_time : Int
  end_time : Int
  size : Option Nat
  sql_mode : Option String
  histogram_interval : Option Int
  deriving DecidableEq, Repr

/-- The full request object (`reqData` in the source). -/
structure ReqData where
  query : SqlQuery
  deriving DecidableEq, Repr

/-- A thrown JavaScript error. -/
inductive JsErr where
  | typeError (msg : String)
  deriving DecidableEq, Repr

/-- The SQL template of `buildQuery`. -/
def templateSql : String := "select * from \"[INDEX_NAME]\" [WHERE_CLAUSE]"

/-- Whitespace as stripped by JavaScript `String.prototype.trim`. -/
def isSpaceCh (c : Char) : Bool :=
  c = ' ' ∨ c = '\t' ∨ c = '\n' ∨ c = '\r'

/-- JavaScript `query.trim()`: strip whitespace from both ends. -/
def jsTrim (s : String) : String :=
  String.mk (((s.toList.dropWhile isSpaceCh).reverse.dropWhile isSpaceCh).reverse)

/-- The where-clause rewriting of `buildQuery`'s expression mode: operator
spacing passes, `split(' ')`, stream-field token quoting, `join(' ')`. -/
def rewriteWhereClause (streamFields : List StreamField) (query : String) :
    List Char :=
  joinSp (quoteFieldTokens streamFields (splitSp (operatorPasses query.toList)))

/-- The body of `buildQuery`'s `try` block, faithful to
`features/query/queryBuilder.ts`: the SQL template, the 300-row default size
set to 0 for every app other than `explore`, the native (sqlMode) passthrough,
and the expression-mode operator spacing, field quoting and template
substitution.  A `none` argument models a JavaScript `undefined` at runtime;
dereferencing it throws a `TypeError`, in the source's evaluation order. -/
def buildQueryTry (queryDataO : Option MyQuery) (timestampsO : Option TimeRange)
    (streamFieldsO : Option (List StreamField)) (app : String)
    (_timestampColumn : String) : Except JsErr ReqData :=
  match queryDataO with
  | none => Except.error (JsErr.typeError "cannot read properties of undefined: query")
  | some queryData =>
    match timestampsO with
    | none => Except.error (JsErr.typeError "cannot read properties of undefined: startTimeInMicro")
    | some timestamps =>
      let query : String := queryData.query.getD ""
      let size0 : Option Nat := if app ≠ "explore" then some 0 else some 300
      if queryData.sqlMode then
        Except.ok { query :=
          { sql := queryData.query
            start_time := timestamps.startTimeInMicro
            end_time := timestamps.endTimeInMirco
            size := size0
            sql_mode := some "full"
            histogram_interval := none } }
      else
        if jsTrim query ≠ "" then
          match streamFieldsO with
          | none => Except.error (JsErr.typeError "cannot read properties of undefined: forEach")
          | some streamFields =>
            Except.ok { query :=
              { sql := some (String.mk (replaceFirst "[INDEX_NAME]".toList
                  queryData.stream.toList
                  (replaceFirst "[WHERE_CLAUSE]".toList
                    (" WHERE ".toList ++ rewriteWhereClause streamFields query)
                    templateSql.toList)))
                start_time := timestamps.startTimeInMicro
                end_time := timestamps.endTimeInMirco
                size := size0
                sql_mode := none
                histogram_interval := none } }
        else
          Except.ok { query :=
            { sql := some (String.mk (replaceFirst "[INDEX_NAME]".toList
                queryData.stream.toList
                (replaceFirst "[WHERE_CLAUSE]".toList [] templateSql.toList)))
              start_time := timestamps.startTimeInMicro
              end_time := timestamps.endTimeInMirco
              size := size0
              sql_mode := none
              histogram_interval := none } }

/-- The exported `buildQuery`: the `try`/`catch` wrapper logs and falls through
on an internal exception, so the function returns `undefined` (`none`) instead
of propagating the error. -/
def buildQuery (queryDataO : Option MyQuery) (timestampsO : Option TimeRange)
    (streamFieldsO : Option (List StreamField)) (app : String)
    (timestampColumn : String) : Option ReqData :=
  match buildQueryTry queryDataO timestampsO streamFieldsO app timestampColumn with
  | Except.ok r => some r
  | Except.error _ => none

/-! ## Result shaper (`features/log/queryResponseBuilder.ts`) -/

/-- Grafana field types used by the shaper. -/
inductive GFieldType where
  | time
  | string
  | number
  | boolean
  deriving DecidableEq, Repr

/-- One column of a produced data frame. -/
structure FrameField where
  name : String
  ftype : GFieldType
  filterable : Bool
  values : List JsVal
  deriving DecidableEq, Repr

/-- A produced `DataFrame`. -/
structure Frame where
  refId : String
  preferredVisualisationType : String
  fields : List FrameField
  length : Nat
  deriving DecidableEq, Repr

/-- The external JavaScript/collaborator services the shaper relies on:
`convertTimeToMs` and `getFieldType` come from `utils/zincutils` (outside this
repository) and the rest abstract the runtime `Date` object. -/
structure JsEnv where
  convertTimeToMs : JsVal → JsVal
  getFieldType : String → GFieldType
  dateParseMs : String → Int
  dateParseAnyMs : JsVal → Int
  dateValid : String → Bool

/-- Is `c` an ASCII digit? -/
def isDigitCh (c : Char) : Bool := '0' ≤ c ∧ c ≤ '9'

/-- The ISO-8601 test regex `^\d{4}-\d{2}-\d{2}[T ]\d{2}:\d{2}:\d{2}` of
`isTimestampValue`. -/
def isoDatePatternTest (s : String) : Bool :=
  match s.toList with
  | y1 :: y2 :: y3 :: y4 :: d1 :: m1 :: m2 :: d2 :: dd1 :: dd2 :: t ::
      h1 :: h2 :: c1 :: mi1 :: mi2 :: c2 :: s1 :: s2 :: _ =>
    isDigitCh y1 ∧ isDigitCh y2 ∧ isDigitCh y3 ∧ isDigitCh y4 ∧ d1 = '-' ∧
    isDigitCh m1 ∧ isDigitCh m2 ∧ d2 = '-' ∧ isDigitCh dd1 ∧ isDigitCh dd2 ∧
    (t = 'T' ∨ t = ' ') ∧ isDigitCh h1 ∧ isDigitCh h2 ∧ c1 = ':' ∧
    isDigitCh mi1 ∧ isDigitCh mi2 ∧ c2 = ':' ∧ isDigitCh s1 ∧ isDigitCh s2
  | _ => false

/-- Source `isTimestampValue`: numbers above one billion, ISO-looking strings, or any
string of length at least 10 that the runtime can parse as a date. -/
def isTimestampValue (env : JsEnv) (v : JsVal) : Bool :=
  match v with
  | JsVal.num n => n > 1000000000
  | JsVal.str s =>
    isoDatePatternTest s ∨ (env.dateValid s ∧ s.length ≥ 10)
  | _ => false

/-- Source `detectTimestampField`: the first key of the first row whose value looks
like a timestamp. -/
def detectTimestampField (env : JsEnv) (data : List Row) : Option String :=
  match data with
  | [] => none
  | firstRow :: _ =>
    match firstRow.find? (fun p => isTimestampValue env p.2) with
    | some p => some p.1
    | none => none

/-- Source `getFieldsFromData`: the key set of the first row. -/
def getFieldsFromData (data : List Row) : List String :=
  match data with
  | [] => []
  | firstRow :: _ => firstRow.map (fun p => p.1)

/-- Source `inferFieldType`: number, boolean, else string. -/
def inferFieldType (v : JsVal) : GFieldType :=
  match v with
  | JsVal.num _ => GFieldType.number
  | JsVal.boolean _ => GFieldType.boolean
  | _ => GFieldType.string

/-- The timezone test of `convertToTimeMs`: the string contains `Z` or `+`, or
matches `-\d{2}:\d{2}$`. -/
def jsHasTimezone (s : String) : Bool :=
  let tailOffset : Bool :=
    match s.toList.reverse with
    | a :: b :: c :: d :: e :: f :: _ =>
      isDigitCh a ∧ isDigitCh b ∧ c = ':' ∧ isDigitCh d ∧ isDigitCh e ∧ f = '-'
    | _ => false
  s.toList.contains 'Z' ∨ s.toList.contains '+' ∨ tailOffset

/-- Source `convertToTimeMs` from `queryResponseBuilder.ts`: numbers above 500 billion
are microseconds (delegated to `convertTimeToMs`), below 10 billion seconds,
in between already milliseconds; strings are parsed as dates with a `Z`
appended when no timezone is present. -/
def convertToTimeMs (env : JsEnv) (v : JsVal) : JsVal :=
  match v with
  | JsVal.num n =>
    if n > 500000000000 then env.convertTimeToMs (JsVal.num n)
    else if n < 10000000000 then JsVal.num (n * 1000)
    else JsVal.num n
  | JsVal.str s =>
    JsVal.num (env.dateParseMs (if jsHasTimezone s then s else s ++ "Z"))
  | other => JsVal.num (env.dateParseAnyMs other)

/-- Serialization of a single value inside `JSON.stringify`. -/
def jsonRenderVal : JsVal → String
  | JsVal.num n => toString n
  | JsVal.str s => "\"" ++ s ++ "\""
  | JsVal.boolean b => if b then "true" else "false"
  | JsVal.null => "null"
  | JsVal.undef => "null"

/-- JavaScript `JSON.stringify` of a row object (`undefined` properties are dropped). -/
def jsonStringify (r : Row) : String :=
  "\x7b" ++
    String.intercalate ","
      ((r.filter (fun p => ¬ p.2 = JsVal.undef)).map
        (fun p => "\"" ++ p.1 ++ "\":" ++ jsonRenderVal p.2)) ++
  "\x7d"

/-- Source `getLogsDataFrame`: a fixed `Time`/`Content` head followed by one column
per stream field in order; `Time` converts the row's timestamp column,
`Content` is the JSON-serialized row. -/
def getLogsDataFrame (env : JsEnv) (data : List Row) (target : MyQuery)
    (streamFields : List StreamField) (timestampColumn : String) : Frame :=
  let timeField : FrameField :=
    { name := "Time", ftype := GFieldType.time, filterable := false
      values := data.map (fun log => env.convertTimeToMs (lookupRow log timestampColumn)) }
  let contentField : FrameField :=
    { name := "Content", ftype := GFieldType.string, filterable := false
      values := data.map (fun log => JsVal.str (jsonStringify log)) }
  let streamCols : List FrameField :=
    streamFields.map (fun f =>
      { name := f.name, ftype := env.getFieldType f.ftype, filterable := false
        values := data.map (fun log => lookupRow log f.name) })
  { refId := target.refId
    preferredVisualisationType := "logs"
    fields := timeField :: contentField :: streamCols
    length := data.length }

/-- The row projection `getField` of the graph shaper: the timestamp column is
renamed `Time` and converted, every other column keeps its value. -/
def getFieldRow (env : JsEnv) (log : Row) (columns : List String)
    (timestampColumn : String) : Row :=
  columns.map (fun col =>
    if col = timestampColumn then ("Time", convertToTimeMs env (lookupRow log col))
    else (col, lookupRow log col))

/-- Source `getGraphDataFrame`: columns come from the first row's keys (or the default
placeholders `zo_sql_key`, `zo_sql_num`, `x_axis_1` when there is no data), the
timestamp column is the first value-detected one falling back to the caller's
name, and that column alone becomes `Time`. -/
def getGraphDataFrame (env : JsEnv) (data : List Row) (target : MyQuery)
    (_app : String) (timestampColumn : String) : Frame :=
  let fieldNames0 := if data.length > 0 then getFieldsFromData data else []
  let detected := detectTimestampField env data
  let timeFieldName := detected.getD timestampColumn
  let fieldNames :=
    if fieldNames0.isEmpty then ["zo_sql_key", "zo_sql_num", "x_axis_1"]
    else fieldNames0
  let mkField : String → FrameField := fun fieldName =>
    if fieldName = timeFieldName then
      { name := "Time", ftype := GFieldType.time, filterable := true
        values := data.map (fun log =>
          lookupRow (getFieldRow env log fieldNames timeFieldName) "Time") }
    else
      { name := fieldName
        ftype :=
          match data with
          | [] => GFieldType.number
          | firstRow :: _ => inferFieldType (lookupRow firstRow fieldName)
        filterable := false
        values := data.map (fun log =>
          lookupRow (getFieldRow env log fieldNames timeFieldName) fieldName) }
  { refId := target.refId
    preferredVisualisationType := "graph"
    fields := fieldNames.map mkField
    length := data.length }

/-! ## Dispatch cache engine (`src/datasource.ts`) -/

/-- Substring test, as JavaScript `String.prototype.includes`. -/
def hasInfix (pat : List Char) : List Char → Bool
  | [] => (stripPre pat []).isSome
  | c :: rest => (stripPre pat (c :: rest)).isSome || hasInfix pat rest

/-- The marker prefixed onto derived log-volume targets. -/
def REF_ID_STARTER_LOG_VOLUME : String := "log-volume-"

/-- The test `target?.refId?.includes(REF_ID_STARTER_LOG_VOLUME)`. -/
def isVolumeRefId (refId : String) : Bool :=
  hasInfix REF_ID_STARTER_LOG_VOLUME.toList refId.toList

/-- The timestamp column used for histogram responses
(`histogramTimestampColumn` in the source, fixed to `zo_sql_key`). -/
def histogramTimestampColumn : String := "zo_sql_key"

/-- The structural cache key: `JSON.stringify` of the built request, the
display mode (`?? 'auto'`) and the target identifier, modelled by the
structure itself compared with structural equality. -/
structure CacheKey where
  reqData : Option ReqData
  displayMode : String
  type : String
  deriving DecidableEq, Repr

/-- One cache slot (`CachedQuery` in `types.ts`): the key it was built for, a
deferred-result handle (`data`/`promise`, here the presence flag plus a handle
identity), and the in-flight flag. -/
structure CacheSlot where
  requestQuery : Option CacheKey
  hasData : Bool
  handle : Nat
  isFetching : Bool
  deriving DecidableEq, Repr

/-- A freshly reset slot (`requestQuery: ''`, `data: null`,
`isFetching: false`). -/
def emptySlot : CacheSlot :=
  { requestQuery := none, hasData := false, handle := 0, isFetching := false }

/-- The mutable instance state of the data source owned by the dispatch
engine: the two cache slots and the side-channel `histogramQuery` field. -/
structure DsState where
  histogramQuery : Option ReqData
  cachedLogsQuery : CacheSlot
  cachedHistogramQuery : CacheSlot
  deriving DecidableEq, Repr

/-- The constructor's initial state. -/
def initialState : DsState :=
  { histogramQuery := none, cachedLogsQuery := emptySlot, cachedHistogramQuery := emptySlot }

/-- The read-only environment of one resolution pass: external collaborator
oracles plus the instance fields that no claim-relevant code mutates during a
pass (`streamFields`, `timestampColumn`) and the batch's time range and app
tag. -/
structure Env where
  js : JsEnv
  logsErrorMessage : Nat → Option String
  timestamps : TimeRange
  streamFields : List StreamField
  app : String
  timestampColumn : String

/-- Pick the slot the target uses: the histogram slot for volume-marked
targets, else the logs slot. -/
def slotFor (st : DsState) (refId : String) : CacheSlot :=
  if isVolumeRefId refId = true then st.cachedHistogramQuery else st.cachedLogsQuery

/-- Replace the slot the target uses. -/
def setSlot (st : DsState) (refId : String) (s : CacheSlot) : DsState :=
  if isVolumeRefId refId = true then { st with cachedHistogramQuery := s }
  else { st with cachedLogsQuery := s }

/-- The in-place mutation applied to the retained histogram request:
`reqData.query.sql_mode = 'context'; delete reqData.query.size`. -/
def applyContextMode (r : ReqData) : ReqData :=
  { query := { r.query with sql_mode := some "context", size := none } }

/-- Lines 94–100 of `processSingleQuery`: a non-volume target stores its fresh
request in the `histogramQuery` side channel; a volume target with a stored
request reuses it (mutating the shared object).  Returns the request used and
the new side-channel value. -/
def prepareHistogramReq (histogramQuery : Option ReqData) (t : MyQuery)
    (built : Option ReqData) : Option ReqData × Option ReqData :=
  if isVolumeRefId t.refId = false then (built, built)
  else
    match histogramQuery with
    | some h => (some (applyContextMode h), some (applyContextMode h))
    | none => (built, histogramQuery)

/-- The cache key computed in `handleCacheManagement`. -/
def cacheKeyOf (reqData : Option ReqData) (t : MyQuery) : CacheKey :=
  { reqData := reqData, displayMode := t.displayMode.getD "auto", type := t.refId }

/-- Source `handleCacheManagement`: serve from the slot when the key matches and a
deferred handle exists; otherwise reset the slot and install a new pending
handle (`fresh`) with `isFetching := true`.  Returns the new state,
`shouldUseCachedData`, and the slot's handle. -/
def handleCacheManagement (st : DsState) (t : MyQuery) (reqData : Option ReqData)
    (fresh : Nat) : DsState × Bool × Nat :=
  if (slotFor st t.refId).requestQuery = some (cacheKeyOf reqData t) ∧
      (slotFor st t.refId).hasData = true then
    (st, true, (slotFor st t.refId).handle)
  else
    (setSlot st t.refId
      { requestQuery := some (cacheKeyOf reqData t), hasData := true
        handle := fresh, isFetching := true },
     false, fresh)

/-- Which pipeline a cache-missing target is routed to. -/
inductive Route where
  | volume
  | logs
  deriving DecidableEq, Repr

/-- The routing test of `processSingleQuery`: volume-marked refId, or the
`panel-editor` / `dashboard` app contexts. -/
def routeOf (t : MyQuery) (app : String) : Route :=
  if isVolumeRefId t.refId = true ∨ app = "panel-editor" ∨ app = "dashboard" then
    Route.volume
  else Route.logs

/-- The synchronous outcome of `processSingleQuery` for one target: either the
caller is attached to the slot's existing deferred handle, or a backend fetch
is started on the given route with the given request and a new handle. -/
inductive StartAction where
  | cached (handle : Nat)
  | fetch (route : Route) (reqData : Option ReqData) (handle : Nat)
  deriving DecidableEq, Repr

/-- The deferred handle a caller ends up attached to. -/
def actionHandle : StartAction → Nat
  | StartAction.cached h => h
  | StartAction.fetch _ _ h => h

/-- Does the action issue a backend fetch? -/
def isFetchAction : StartAction → Bool
  | StartAction.cached _ => false
  | StartAction.fetch _ _ _ => true

/-- The request `buildQuery` produces for a target in a given environment. -/
def buildFor (env : Env) (t : MyQuery) : Option ReqData :=
  buildQuery (some t) (some env.timestamps) (some env.streamFields) env.app
    env.timestampColumn

/-- The request a target's resolution will use, given the current side-channel
value. -/
def stepReq (env : Env) (hq : Option ReqData) (t : MyQuery) : Option ReqData :=
  (prepareHistogramReq hq t (buildFor env t)).1

/-- The side-channel value after a target's resolution starts. -/
def nextHq (env : Env) (hq : Option ReqData) (t : MyQuery) : Option ReqData :=
  (prepareHistogramReq hq t (buildFor env t)).2

/-- The cache key a target's resolution computes, given the current
side-channel value. -/
def stepKeyOf (env : Env) (hq : Option ReqData) (t : MyQuery) : CacheKey :=
  cacheKeyOf (stepReq env hq t) t

/-- The synchronous part of `processSingleQuery`: build the request, update the
`histogramQuery` side channel, consult the cache, and either attach to the
existing handle or start a fetch on the computed route. -/
def processSingleQueryStart (env : Env) (st : DsState) (fresh : Nat)
    (t : MyQuery) : DsState × StartAction :=
  match handleCacheManagement { st with histogramQuery := nextHq env st.histogramQuery t }
      t (stepReq env st.histogramQuery t) fresh with
  | (st2, true, h) => (st2, StartAction.cached h)
  | (st2, false, h) =>
    (st2, StartAction.fetch (routeOf t env.app) (stepReq env st.histogramQuery t) h)

/-- Process a batch of targets in submission order (the synchronous part of
`query`'s map runs to completion before any fetch resolves, so the starts are
strictly sequential); `fresh` numbers the deferred handles. -/
def runStarts (env : Env) : DsState → Nat → List MyQuery → DsState × List StartAction
  | st, _, [] => (st, [])
  | st, fresh, t :: ts =>
    let r1 := processSingleQueryStart env st fresh t
    let r2 := runStarts env r1.1 (fresh + 1) ts
    (r2.1, r1.2 :: r2.2)

/-- The trace of cache keys computed along a batch (depends only on the
side-channel component of the state). -/
def runKeys (env : Env) : Option ReqData → List MyQuery → List CacheKey
  | _, [] => []
  | hq, t :: ts => stepKeyOf env hq t :: runKeys env (nextHq env hq t) ts

/-- The backend fetches issued in a trace of start actions, by handle. -/
def fetchHandles (acts : List StartAction) : List Nat :=
  (acts.filter (fun a => isFetchAction a = true)).map actionHandle

/-! ### Fetch pipelines -/

/-- A partition-discovery response. -/
structure PartitionResp where
  partitions : List (Int × Int)
  is_histogram_eligible : Bool
  histogram_interval : Option Int
  deriving DecidableEq, Repr

/-- A histogram/search response (`hits` may be missing). -/
structure HistResp where
  hits : Option (List Row)
  deriving DecidableEq, Repr

/-- JavaScript `a || b` for strings (empty string is falsy). -/
def jsOrStr (o : Option String) (dflt : String) : String :=
  match o with
  | some s => if s = "" then dflt else s
  | none => dflt

/-- Source `createDataFrame`: graph shaping for graph display mode or volume targets
(with the fixed histogram timestamp column), logs shaping otherwise. -/
def createDataFrame (env : Env) (hits : List Row) (t : MyQuery) : Frame :=
  if jsOrStr t.displayMode "auto" = "graph" ∨ isVolumeRefId t.refId = true then
    getGraphDataFrame env.js hits t env.app histogramTimestampColumn
  else
    getLogsDataFrame env.js hits t env.streamFields env.timestampColumn

/-- Source `handleQueryError`: the empty frame resolved on histogram-path failures,
shaped by the same mode rule. -/
def handleQueryError (env : Env) (t : MyQuery) : Frame :=
  if jsOrStr t.displayMode "auto" = "graph" ∨ isVolumeRefId t.refId = true then
    getGraphDataFrame env.js [] t env.app histogramTimestampColumn
  else
    getLogsDataFrame env.js [] t env.streamFields env.timestampColumn

/-- The derived per-partition request: the base request with the partition's
bounds and the discovered global `histogram_interval`. -/
def mkPartitionQuery (reqData : ReqData) (pr : PartitionResp)
    (partition : Int × Int) : ReqData :=
  { query := { reqData.query with
      start_time := partition.1
      end_time := partition.2
      histogram_interval := pr.histogram_interval } }

/-- The fan-in accumulator `histogramResponses.reduce((acc, r) =>
acc.concat(r.hits || []), [])`. -/
def jsReduceConcatHits (resps : List HistResp) : List Row :=
  resps.foldl (fun acc r => acc ++ r.hits.getD []) []

/-- Source `processPartitionResponse`, as a pure function of the discovery response
and a backend oracle for the per-partition histogram calls.  Returns the list
of histogram requests issued together with the produced frame. -/
def processPartitionResponse (env : Env) (t : MyQuery) (reqData : ReqData)
    (backend : ReqData → HistResp) (partitionResponse : PartitionResp) :
    List ReqData × Frame :=
  if partitionResponse.partitions.length > 0 then
    if partitionResponse.is_histogram_eligible = false then
      ([], createDataFrame env [] t)
    else
      let reqs := partitionResponse.partitions.map
        (mkPartitionQuery reqData partitionResponse)
      (reqs, createDataFrame env (jsReduceConcatHits (reqs.map backend)) t)
  else
    ([reqData], createDataFrame env ((backend reqData).hits.getD []) t)

/-- The first statement of `processVolumeOrDashboardQuery`: dereferences
`reqData.query` (a `TypeError` when `buildQuery` returned `undefined`) and
deletes the `size` cap. -/
def deleteSizeStep (reqData : Option ReqData) : Except JsErr ReqData :=
  match reqData with
  | none => Except.error (JsErr.typeError "cannot read properties of undefined: query")
  | some r => Except.ok { query := { r.query with size := none } }

/-- The asynchronous outcome of the volume path's partition discovery: either a
discovery response arrived (per-partition fetches then answered by the backend
oracle), or discovery or some partition fetch rejected. -/
inductive VolumeOutcome where
  | partitionOk (pr : PartitionResp)
  | failed
  deriving Repr

/-- The asynchronous outcome of the direct logs fetch. -/
structure ErrData where
  message : Option String
  error_detail : Option String
  code : Nat
  deriving DecidableEq, Repr

/-- A transport-level rejection as seen by the `catch` handler. -/
structure JsHttpErr where
  data : Option ErrData
  statusText : String
  deriving DecidableEq, Repr

/-- The asynchronous outcome of the direct logs fetch. -/
inductive LogsOutcome where
  | success (hits : List Row)
  | failure (err : JsHttpErr)
  deriving Repr

/-- JavaScript string coercion of a possibly-undefined string. -/
def jsStr (o : Option String) : String := o.getD "undefined"

/-- JavaScript truthiness of a possibly-undefined string. -/
def jsTruthy (o : Option String) : Bool :=
  match o with
  | some s => s ≠ ""
  | none => false

/-- The error normalization of `processLogsQuery`'s `catch` handler: prefer the
backend's remapped code message, else the supplied message, else the transport
status text, with the detail appended in parentheses.  When the rejection
carries no `data` object the handler itself throws a `TypeError` reading
`err.data.code`. -/
def normalizeLogsError (lem : Nat → Option String) (err : JsHttpErr) :
    Except JsErr String :=
  match err.data with
  | none => Except.error (JsErr.typeError "cannot read properties of undefined: code")
  | some d =>
    let message := d.message
    let custom := lem d.code
    let message2 := if jsTruthy custom = true then custom else message
    Except.ok (jsStr message2 ++
      (if jsTruthy d.error_detail = true then " ( " ++ jsStr d.error_detail ++ " ) " else ""))

/-- Clear `isFetching` on the captured slot object; the live slot is only
affected when it is still the same incarnation (same handle). -/
def clearIsFetching (st : DsState) (t : MyQuery) (handle : Nat) : DsState :=
  if (slotFor st t.refId).handle = handle then
    setSlot st t.refId { slotFor st t.refId with isFetching := false }
  else st

/-- Source `processLogsQuery` completion: shape hits as logs and resolve, or reject
with the normalized error; either way the `finally` clears `isFetching`. -/
def processLogsQuery (env : Env) (st : DsState) (t : MyQuery) (handle : Nat)
    (outcome : LogsOutcome) : DsState × Except String Frame :=
  match outcome with
  | LogsOutcome.success hits =>
    (clearIsFetching st t handle,
     Except.ok (getLogsDataFrame env.js hits t env.streamFields env.timestampColumn))
  | LogsOutcome.failure err =>
    (clearIsFetching st t handle,
     match normalizeLogsError env.logsErrorMessage err with
     | Except.ok msg => Except.error msg
     | Except.error (JsErr.typeError m) => Except.error m)

/-- Source `processVolumeOrDashboardQuery` completion: delete the size cap, run the
partition flow (or degrade to the empty frame on failure).  There is no
`finally` on this path, so the state's `isFetching` flag is left untouched. -/
def processVolumeOrDashboardQuery (env : Env) (st : DsState) (t : MyQuery)
    (reqData : Option ReqData) (backend : ReqData → HistResp)
    (outcome : VolumeOutcome) : DsState × Except String (List ReqData × Frame) :=
  match deleteSizeStep reqData with
  | Except.error (JsErr.typeError m) => (st, Except.error m)
  | Except.ok r =>
    match outcome with
    | VolumeOutcome.partitionOk pr =>
      (st, Except.ok (processPartitionResponse env t r backend pr))
    | VolumeOutcome.failed => (st, Except.ok ([], handleQueryError env t))

/-! ### `Promise.all` fan-in model -/

/-- The fan-in collection of concurrently completing promises: each completion
(arriving in arbitrary `arrivalOrder`) stores its result at its own index. -/
def promiseAllCollect (resps : List α) (arrivalOrder : List Nat) :
    Nat → Option α :=
  arrivalOrder.foldl (fun acc i => Function.update acc i resps[i]?) (fun _ => none)

/-- The array `Promise.all` hands to its continuation: results read back in
index order once every promise has completed. -/
def promiseAllResult (resps : List α) (arrivalOrder : List Nat) : List (Option α) :=
  (List.range resps.length).map (promiseAllCollect resps arrivalOrder)

/-! ## Concrete fixtures used to instantiate the theorems -/

/-- A concrete stand-in for the JavaScript runtime oracles. -/
def jsEnv0 : JsEnv :=
  { convertTimeToMs := fun v => v
    getFieldType := fun _ => GFieldType.string
    dateParseMs := fun _ => 0
    dateParseAnyMs := fun _ => 0
    dateValid := fun _ => false }

/-- A concrete time range. -/
def tsFix : TimeRange := { startTimeInMicro := 100, endTimeInMirco := 200 }

/-- A concrete stream-field set containing the `status` column. -/
def sfFix : List StreamField := [{ name := "status", ftype := "Int64" }]

/-- A concrete environment with the given app tag. -/
def mkEnv (app : String) : Env :=
  { js := jsEnv0
    logsErrorMessage := fun _ => none
    timestamps := tsFix
    streamFields := sfFix
    app := app
    timestampColumn := "_timestamp" }

/-- A plain logs target. -/
def plainTarget : MyQuery :=
  { refId := "A", query := some "", sqlMode := false, stream := "s"
    displayMode := none, organization := "o" }

/-- The target carrying the spec's filter-rewrite example expression. -/
def exampleFilterTarget : MyQuery :=
  { plainTarget with query := some "status=200 and service=\"a=b\"" }

/-- A target whose filter has a bare comparison with no quoted literal. -/
def spacingTarget : MyQuery :=
  { plainTarget with query := some "status>200" }

/-- A target with graph display intent. -/
def graphIntentTarget : MyQuery :=
  { plainTarget with displayMode := some "graph" }

/-- A derived log-volume target. -/
def volumeTarget : MyQuery :=
  { plainTarget with refId := "log-volume-A" }

/-- A concrete base request for the partition fixtures. -/
def reqFix : ReqData :=
  { query :=
    { sql := some "select * from \"s\" ", start_time := 0, end_time := 20
      size := some 300, sql_mode := none, histogram_interval := none } }

/-- A backend oracle answering every histogram request with a single hit
tagged by the request's start time, so that merge order is observable. -/
def backendFix : ReqData → HistResp :=
  fun r => { hits := some [[("zo_sql_key", JsVal.num r.query.start_time)]] }

/-- A discovery response with two partitions. -/
def twoPartitionResp : PartitionResp :=
  { partitions := [(0, 10), (10, 20)], is_histogram_eligible := true
    histogram_interval := some 10 }

/-- A transport rejection carrying backend data. -/
def httpErrFix : JsHttpErr :=
  { data := some { message := some "boom", error_detail := none, code := 7 }
    statusText := "Bad Request" }

/-- Projection of the request carried by a fetch action. -/
def actionReqData : StartAction → Option ReqData
  | StartAction.cached _ => none
  | StartAction.fetch _ r _ => r

/-! ## Theorems -/

/-- The sql text `buildQuery` produces on the spec's example expression with
`status` a known stream field: the filter is embedded verbatim. -/
theorem example_filter_sql :
    (buildQuery (some exampleFilterTarget) (some tsFix) (some sfFix) "explore"
        "_timestamp").map (fun r => r.query.sql) =
      some (some "select * from \"s\"  WHERE status=200 and service=\"a=b\"") := by
  decide

/-- C4 (counterexample): on the expression `status=200 and service="a=b"` with
`status` a known stream field, the builder leaves the filter entirely
unchanged — the produced SQL still contains the fused token `status=200`, no
` = ` spacing anywhere, and no quoted `"status"` identifier — contradicting
the claimed rewrite to `status = 200 and service = "a=b"` (with `status`
quoted). -/
theorem claim_C4_filter_rewrite_counterexample :
    (buildQuery (some exampleFilterTarget) (some tsFix) (some sfFix) "explore"
        "_timestamp").map (fun r => r.query.sql) =
      some (some "select * from \"s\"  WHERE status=200 and service=\"a=b\"") ∧
    hasInfix "status=200".toList
      "select * from \"s\"  WHERE status=200 and service=\"a=b\"".toList = true ∧
    hasInfix " = ".toList
      "select * from \"s\"  WHERE status=200 and service=\"a=b\"".toList = false ∧
    hasInfix (dq :: "status".toList ++ [dq])
      " WHERE status=200 and service=".toList = false := by
  decide

/-- C4 (amended): the operator passes fire only when the rest of the
expression, after the operator, contains no quote character except double
quotes immediately followed by a single quote (the regex lookahead is
`(?:[^"']*"[^"']*"')*[^"']*$`), so the example expression containing a bare
double-quoted literal is embedded verbatim; when a pass does fire it inserts a
space before the operator only, and only tokens exactly equal to a stream
field name are quoted — `status>200` becomes `"status" >200`. -/
theorem claim_C4_filter_rewrite_amended :
    (buildQuery (some exampleFilterTarget) (some tsFix) (some sfFix) "explore"
        "_timestamp").map (fun r => r.query.sql) =
      some (some "select * from \"s\"  WHERE status=200 and service=\"a=b\"") ∧
    (buildQuery (some spacingTarget) (some tsFix) (some sfFix) "explore"
        "_timestamp").map (fun r => r.query.sql) =
      some (some "select * from \"s\"  WHERE \"status\" >200") := by
  decide

/-- C6 (counterexample): with the `explore` caller context the built request
keeps the bounded sample count 300, and with the `dashboard` context the size
cap is 0 — the opposite of the claimed "size is 0 exactly for the explore
variants". -/
theorem claim_C6_size_cap_counterexample :
    (buildQuery (some plainTarget) (some tsFix) (some sfFix) "explore"
        "_timestamp").map (fun r => r.query.size) = some (some 300) ∧
    (buildQuery (some plainTarget) (some tsFix) (some sfFix) "dashboard"
        "_timestamp").map (fun r => r.query.size) = some (some 0) := by
  decide

/-- C6 (amended): for every well-formed input the result-size cap defaults to
the bounded sample count 300 and is set to 0 exactly when the caller context
is anything other than `explore`; the `explore` context keeps the bounded
count. -/
theorem claim_C6_size_cap_amended (qd : MyQuery) (ts : TimeRange)
    (sf : List StreamField) (app col : String) :
    (buildQuery (some qd) (some ts) (some sf) app col).map (fun r => r.query.size) =
      some (if app = "explore" then some 300 else some 0) := by
  unfold buildQuery buildQueryTry
  by_cases hsm : qd.sqlMode = true
  · by_cases happ : app = "explore" <;> simp [hsm, happ]
  · by_cases htrim : jsTrim (qd.query.getD "") ≠ "" <;>
      by_cases happ : app = "explore" <;>
        simp [hsm, htrim, happ]

/-- C5 (counterexample): when request construction fails internally (here: the
time range object is `undefined`, so reading `startTimeInMicro` throws inside
the `try` block), `buildQuery` returns `undefined` rather than a best-effort
degraded request, and the volume/dashboard caller's first use of the returned
value (`reqData.query`) throws a `TypeError`, aborting that resolution. -/
theorem claim_C5_degraded_request_counterexample :
    buildQuery (some plainTarget) none (some sfFix) "dashboard" "_timestamp" = none ∧
    deleteSizeStep (buildQuery (some plainTarget) none (some sfFix) "dashboard"
        "_timestamp") =
      Except.error (JsErr.typeError "cannot read properties of undefined: query") :=
  ⟨rfl, rfl⟩

/-- C5 (amended): `buildQuery` itself never propagates the internal exception
(the `catch` turns every failure of the `try` body into a logged `undefined`
result), but on failure it returns `undefined` rather than a usable request;
a caller on the volume/dashboard route then throws a `TypeError`
dereferencing `reqData.query`, so a resolution pass is not guaranteed to
proceed with the returned value. -/
theorem claim_C5_degraded_request_amended (qd : Option MyQuery)
    (ts : Option TimeRange) (sf : Option (List StreamField)) (app col : String) :
    (match buildQueryTry qd ts sf app col with
     | Except.ok r => buildQuery qd ts sf app col = some r
     | Except.error _ => buildQuery qd ts sf app col = none) ∧
    (buildQuery qd ts sf app col = none →
      deleteSizeStep (buildQuery qd ts sf app col) =
        Except.error (JsErr.typeError "cannot read properties of undefined: query")) := by
  constructor
  · cases h : buildQueryTry qd ts sf app col <;> simp [buildQuery, h]
  · intro h
    rw [h]
    rfl

/-- C5 (witness): the amended theorem applied at the failing input. -/
theorem claim_C5_degraded_request_witness :
    buildQuery (some plainTarget) none (some sfFix) "explore" "_timestamp" = none ∧
    deleteSizeStep (buildQuery (some plainTarget) none (some sfFix) "explore"
        "_timestamp") =
      Except.error (JsErr.typeError "cannot read properties of undefined: query") :=
  ⟨rfl,
   (claim_C5_degraded_request_amended (some plainTarget) none (some sfFix)
     "explore" "_timestamp").2 rfl⟩

/-- C3 (counterexample): a target with display intent `graph` but no volume
marker, resolved outside the `panel-editor`/`dashboard` contexts, is routed to
the direct logs fetch, not the partitioned histogram fetcher; and a target
with display intent `logs` in the `dashboard` context is routed to the
partitioned path — display intent does not decide routing. -/
theorem claim_C3_routing_counterexample :
    routeOf graphIntentTarget "explore" = Route.logs ∧
    (processSingleQueryStart (mkEnv "explore") initialState 0 graphIntentTarget).2 =
      StartAction.fetch Route.logs (buildFor (mkEnv "explore") graphIntentTarget) 0 ∧
    routeOf { plainTarget with displayMode := some "logs" } "dashboard" = Route.volume := by
  refine ⟨rfl, ?_, rfl⟩
  rfl

/-- C3 (amended): a target is routed through the partitioned histogram fetcher
exactly when its identifier carries the volume marker or the caller app is
`panel-editor` or `dashboard`; display intent plays no part in routing.  Every
other target is resolved by the direct fetch whose successful result is shaped
as logs. -/
theorem claim_C3_routing_amended (t : MyQuery) (app : String) :
    (routeOf t app = Route.volume ↔
      (isVolumeRefId t.refId = true ∨ app = "panel-editor" ∨ app = "dashboard")) ∧
    (∀ (env : Env) (st : DsState) (h : Nat) (hits : List Row),
      (processLogsQuery env st t h (LogsOutcome.success hits)).2 =
        Except.ok (getLogsDataFrame env.js hits t env.streamFields env.timestampColumn)) := by
  constructor
  · by_cases hc : (isVolumeRefId t.refId = true ∨ app = "panel-editor" ∨ app = "dashboard") <;>
      simp [routeOf, hc]
  · intro env st h hits
    rfl

/-- C9 (counterexample): on an empty row set the graph shaper called with its
own default timestamp column `_timestamp` emits only the three placeholder
columns and no `Time` column at all — the claimed "Time column plus the
default placeholder columns" does not hold of the shaper unconditionally. -/
theorem claim_C9_empty_schema_counterexample :
    ((getGraphDataFrame jsEnv0 [] plainTarget "explore" "_timestamp").fields.map
      (fun f => f.name)) = ["zo_sql_key", "zo_sql_num", "x_axis_1"] ∧
    (((getGraphDataFrame jsEnv0 [] plainTarget "explore" "_timestamp").fields.map
      (fun f => f.name)).contains "Time") = false := by
  decide

/-- C9 (amended): on an empty row set the logs shaper emits exactly `Time`,
`Content`, then one column per stream field in order (with `Time` typed as
time and `Content` as string), and the graph shaper emits the default
placeholder columns `zo_sql_key`, `zo_sql_num`, `x_axis_1` with the one equal
to the caller-supplied timestamp column renamed `Time` — at the datasource's
call sites that column is `zo_sql_key`, giving `Time`, `zo_sql_num`,
`x_axis_1`; both frames have length 0. -/
theorem claim_C9_empty_schema_amended (env : JsEnv) (t : MyQuery) (app col : String)
    (sf : List StreamField) :
    ((getLogsDataFrame env [] t sf col).fields.map (fun f => f.name)) =
      "Time" :: "Content" :: sf.map (fun f => f.name) ∧
    ((getLogsDataFrame env [] t sf col).fields.map (fun f => f.ftype)).take 2 =
      [GFieldType.time, GFieldType.string] ∧
    (getLogsDataFrame env [] t sf col).length = 0 ∧
    ((getGraphDataFrame env [] t app "zo_sql_key").fields.map
      (fun f => (f.name, f.ftype))) =
      [("Time", GFieldType.time), ("zo_sql_num", GFieldType.number),
       ("x_axis_1", GFieldType.number)] ∧
    (getGraphDataFrame env [] t app "zo_sql_key").length = 0 := by
  refine ⟨?_, rfl, rfl, rfl, rfl⟩
  simp only [getLogsDataFrame, List.map_cons, List.map_map]
  rfl

/-- C7 (counterexample): a discovery response with zero partitions that is
also marked not histogram-eligible does not produce the immediate empty frame:
the code falls into the zero-partition fallback and issues the single direct
histogram request. -/
theorem claim_C7_not_eligible_counterexample :
    (processPartitionResponse (mkEnv "explore") volumeTarget reqFix backendFix
      { partitions := [], is_histogram_eligible := false,
        histogram_interval := none }).1 = [reqFix] := by
  rfl

/-- C7 (amended): when the backend reports the range not histogram-eligible
and returns at least one partition, the resolution yields the empty frame
immediately with no histogram request issued; when zero partitions are
returned the single whole-range fallback request is issued regardless of
eligibility; and with partitions present and eligibility the issued requests
are exactly the per-partition derived requests. -/
theorem claim_C7_not_eligible_amended (env : Env) (t : MyQuery) (reqData : ReqData)
    (backend : ReqData → HistResp) (pr : PartitionResp) :
    (pr.partitions ≠ [] → pr.is_histogram_eligible = false →
      processPartitionResponse env t reqData backend pr =
        ([], createDataFrame env [] t)) ∧
    (pr.partitions = [] →
      processPartitionResponse env t reqData backend pr =
        ([reqData], createDataFrame env ((backend reqData).hits.getD []) t)) ∧
    (pr.partitions ≠ [] → pr.is_histogram_eligible = true →
      (processPartitionResponse env t reqData backend pr).1 =
        pr.partitions.map (mkPartitionQuery reqData pr)) := by
  refine ⟨?_, ?_, ?_⟩
  · intro hne hel
    simp [processPartitionResponse, hel, List.length_pos.mpr hne]
  · intro he
    simp [processPartitionResponse, he]
  · intro hne hel
    simp [processPartitionResponse, hel, List.length_pos.mpr hne]

/-- C7 (witness): the amended theorem applied at a one-partition not-eligible
response and at a zero-partition response. -/
theorem claim_C7_not_eligible_witness :
    processPartitionResponse (mkEnv "explore") volumeTarget reqFix backendFix
      { partitions := [(0, 10)], is_histogram_eligible := false,
        histogram_interval := none } =
      ([], createDataFrame (mkEnv "explore") [] volumeTarget) ∧
    processPartitionResponse (mkEnv "explore") volumeTarget reqFix backendFix
      { partitions := [], is_histogram_eligible := true,
        histogram_interval := none } =
      ([reqFix],
       createDataFrame (mkEnv "explore") ((backendFix reqFix).hits.getD [])
        volumeTarget) :=
  ⟨(claim_C7_not_eligible_amended (mkEnv "explore") volumeTarget reqFix backendFix
      { partitions := [(0, 10)], is_histogram_eligible := false,
        histogram_interval := none }).1 (by decide) rfl,
   (claim_C7_not_eligible_amended (mkEnv "explore") volumeTarget reqFix backendFix
      { partitions := [], is_histogram_eligible := true,
        histogram_interval := none }).2.1 rfl⟩

/-- Each completed promise stores its result at its own index; once an index
is written (or already holds its value) the fold preserves it. -/
theorem promiseAllCollect_mem {α : Type} (resps : List α) :
    ∀ (l : List Nat) (acc : Nat → Option α) (i : Nat),
      (acc i = resps[i]? ∨ i ∈ l) →
      l.foldl (fun acc2 j => Function.update acc2 j resps[j]?) acc i = resps[i]? := by
  intro l
  induction l with
  | nil =>
    intro acc i h
    rcases h with h | h
    · simpa using h
    · exact absurd h (List.not_mem_nil i)
  | cons j tl ih =>
    intro acc i h
    simp only [List.foldl_cons]
    apply ih
    by_cases hij : i = j
    · left
      subst hij
      simp [Function.update_apply]
    · rcases h with h | h
      · left
        simpa [Function.update_apply, hij] using h
      · rcases List.mem_cons.mp h with h1 | h2
        · exact absurd h1 hij
        · exact Or.inr h2

/-- Reading back `l[i]?` over the index range reproduces the list. -/
theorem range_map_getElem {α : Type} (l : List α) :
    (List.range l.length).map (fun i => l[i]?) = l.map some := by
  induction l with
  | nil => rfl
  | cons a tl ih =>
    simp only [List.length_cons, List.range_succ_eq_map, List.map_cons,
      List.map_map, List.map_cons, List.getElem?_cons_zero]
    refine congrArg₂ _ rfl ?_
    have hfun : ((fun i => (a :: tl)[i]?) ∘ Nat.succ) = fun i => tl[i]? := by
      funext i
      simp
    rw [hfun]
    exact ih

/-- JavaScript `Promise.all` is completion-order independent: for every permutation in
which the sub-fetches complete, the collected array equals the responses in
request-index order. -/
theorem promiseAllResult_perm {α : Type} (resps : List α) (order : List Nat)
    (h : order.Perm (List.range resps.length)) :
    promiseAllResult resps order = resps.map some := by
  unfold promiseAllResult promiseAllCollect
  have hpt : ∀ i ∈ List.range resps.length,
      (order.foldl (fun acc2 j => Function.update acc2 j resps[j]?)
        (fun _ => none)) i = resps[i]? := by
    intro i hi
    exact promiseAllCollect_mem resps order _ i (Or.inr (h.mem_iff.mpr hi))
  rw [List.map_congr_left hpt]
  exact range_map_getElem resps

/-- The fan-in `reduce` equals the flattening of the per-response hit arrays
in response order. -/
theorem jsReduceConcatHits_flatten (resps : List HistResp) :
    jsReduceConcatHits resps = (resps.map (fun r => r.hits.getD [])).flatten := by
  have gen : ∀ (rs : List HistResp) (acc : List Row),
      rs.foldl (fun a r => a ++ r.hits.getD []) acc =
        acc ++ (rs.map (fun r => r.hits.getD [])).flatten := by
    intro rs
    induction rs with
    | nil => intro acc; simp
    | cons r tl ih => intro acc; simp [ih, List.append_assoc]
  simpa using gen resps []

/-- C8: partition fan-in is order-preserving — the `Promise.all` collection is
independent of the completion order (any permutation of arrivals yields the
responses in request order), and the merged hit set handed to the shaper is
the concatenation of the per-partition hit arrays in partition order. -/
theorem claim_C8_partition_merge_order (env : Env) (t : MyQuery) (reqData : ReqData)
    (backend : ReqData → HistResp) (pr : PartitionResp) (arrivalOrder : List Nat)
    (hperm : arrivalOrder.Perm
      (List.range ((pr.partitions.map (mkPartitionQuery reqData pr)).map backend).length)) :
    promiseAllResult ((pr.partitions.map (mkPartitionQuery reqData pr)).map backend)
        arrivalOrder =
      ((pr.partitions.map (mkPartitionQuery reqData pr)).map backend).map some ∧
    jsReduceConcatHits ((pr.partitions.map (mkPartitionQuery reqData pr)).map backend) =
      (pr.partitions.map
        (fun p => (backend (mkPartitionQuery reqData pr p)).hits.getD [])).flatten ∧
    (pr.is_histogram_eligible = true → pr.partitions ≠ [] →
      (processPartitionResponse env t reqData backend pr).2 =
        createDataFrame env
          ((pr.partitions.map
            (fun p => (backend (mkPartitionQuery reqData pr p)).hits.getD [])).flatten)
          t) := by
  refine ⟨promiseAllResult_perm _ arrivalOrder hperm, ?_, ?_⟩
  · rw [jsReduceConcatHits_flatten, List.map_map, List.map_map]
    rfl
  · intro hel hne
    simp only [processPartitionResponse, hel, List.length_pos.mpr hne, if_pos,
      Bool.true_eq_false, if_neg, if_false]
    rw [jsReduceConcatHits_flatten, List.map_map, List.map_map]
    rfl

/-- C8 (witness): two partitions whose responses arrive out of order
(completion order `[1, 0]`) still merge in partition order. -/
theorem claim_C8_partition_merge_order_witness :
    promiseAllResult
        ((twoPartitionResp.partitions.map (mkPartitionQuery reqFix twoPartitionResp)).map
          backendFix) [1, 0] =
      ((twoPartitionResp.partitions.map (mkPartitionQuery reqFix twoPartitionResp)).map
        backendFix).map some ∧
    (processPartitionResponse (mkEnv "explore") volumeTarget reqFix backendFix
        twoPartitionResp).2 =
      createDataFrame (mkEnv "explore")
        ((twoPartitionResp.partitions.map
          (fun p => (backendFix (mkPartitionQuery reqFix twoPartitionResp p)).hits.getD
            [])).flatten)
        volumeTarget :=
  ⟨(claim_C8_partition_merge_order (mkEnv "explore") volumeTarget reqFix backendFix
      twoPartitionResp [1, 0] (by decide)).1,
   (claim_C8_partition_merge_order (mkEnv "explore") volumeTarget reqFix backendFix
      twoPartitionResp [1, 0] (by decide)).2.2 rfl (by decide)⟩

/-- Replacing a cache slot leaves the side-channel field untouched. -/
theorem setSlot_histogramQuery (st : DsState) (r : String) (s : CacheSlot) :
    (setSlot st r s).histogramQuery = st.histogramQuery := by
  unfold setSlot
  split <;> rfl

/-- Cache management never writes the side-channel field. -/
theorem hcm_histogramQuery (st : DsState) (t : MyQuery) (rd : Option ReqData)
    (fresh : Nat) :
    (handleCacheManagement st t rd fresh).1.histogramQuery = st.histogramQuery := by
  unfold handleCacheManagement
  split
  · rfl
  · exact setSlot_histogramQuery st t.refId _

/-- After one target's synchronous start, the side-channel field holds exactly
`nextHq` of the previous value — independent of cache hit or miss. -/
theorem processSingleQueryStart_histogramQuery (env : Env) (st : DsState)
    (fresh : Nat) (t : MyQuery) :
    (processSingleQueryStart env st fresh t).1.histogramQuery =
      nextHq env st.histogramQuery t := by
  unfold processSingleQueryStart
  rcases hmatch : handleCacheManagement
      { st with histogramQuery := nextHq env st.histogramQuery t } t
      (stepReq env st.histogramQuery t) fresh with ⟨st2, b, hh⟩
  have h2 : st2.histogramQuery = nextHq env st.histogramQuery t := by
    have hx := hcm_histogramQuery
      { st with histogramQuery := nextHq env st.histogramQuery t } t
      (stepReq env st.histogramQuery t) fresh
    rw [hmatch] at hx
    exact hx
  cases b <;> simp [hmatch, h2]

/-- Starts of a concatenated batch: the second batch continues from the first
batch's final instance state, and the actions concatenate. -/
theorem runStarts_append (env : Env) : ∀ (ts1 ts2 : List MyQuery) (st : DsState)
    (fresh : Nat),
    runStarts env st fresh (ts1 ++ ts2) =
      ((runStarts env (runStarts env st fresh ts1).1 (fresh + ts1.length) ts2).1,
       (runStarts env st fresh ts1).2 ++
         (runStarts env (runStarts env st fresh ts1).1 (fresh + ts1.length) ts2).2) := by
  intro ts1
  induction ts1 with
  | nil =>
    intro ts2 st fresh
    simp [runStarts]
  | cons t tl ih =>
    intro ts2 st fresh
    have h1 : runStarts env st fresh ((t :: tl) ++ ts2) =
        ((runStarts env (processSingleQueryStart env st fresh t).1 (fresh + 1)
          (tl ++ ts2)).1,
         (processSingleQueryStart env st fresh t).2 ::
           (runStarts env (processSingleQueryStart env st fresh t).1 (fresh + 1)
             (tl ++ ts2)).2) := rfl
    have h2 : runStarts env st fresh (t :: tl) =
        ((runStarts env (processSingleQueryStart env st fresh t).1 (fresh + 1) tl).1,
         (processSingleQueryStart env st fresh t).2 ::
           (runStarts env (processSingleQueryStart env st fresh t).1 (fresh + 1) tl).2) :=
      rfl
    have harith : fresh + 1 + tl.length = fresh + (t :: tl).length := by
      simp only [List.length_cons]
      omega
    rw [h1, h2, ih ts2 (processSingleQueryStart env st fresh t).1 (fresh + 1), harith]
    simp [List.cons_append]

/-- C10: every non-volume resolution overwrites the `histogramQuery` side
channel with the freshly built request before the cache is consulted (the
statement is unconditional in the cache outcome, because the overwrite
precedes `handleCacheManagement`); a volume resolution never stores a fresh
build — it reuses the retained request with its size cap deleted and
`sql_mode` forced to `context` (mutating the shared object) — and the
instance state threads across batches, so a volume target in a later batch
still sees the retained request. -/
theorem claim_C10_side_channel (env : Env) (st : DsState) (fresh : Nat)
    (t : MyQuery) :
    (isVolumeRefId t.refId = false →
      (processSingleQueryStart env st fresh t).1.histogramQuery = buildFor env t) ∧
    (isVolumeRefId t.refId = true →
      (processSingleQueryStart env st fresh t).1.histogramQuery =
        st.histogramQuery.map applyContextMode ∧
      (∀ h, st.histogramQuery = some h →
        stepReq env st.histogramQuery t = some (applyContextMode h) ∧
        (applyContextMode h).query.size = none ∧
        (applyContextMode h).query.sql_mode = some "context") ∧
      (st.histogramQuery = none → stepReq env st.histogramQuery t = buildFor env t)) ∧
    (∀ ts1 ts2 : List MyQuery,
      runStarts env st fresh (ts1 ++ ts2) =
        ((runStarts env (runStarts env st fresh ts1).1 (fresh + ts1.length) ts2).1,
         (runStarts env st fresh ts1).2 ++
           (runStarts env (runStarts env st fresh ts1).1 (fresh + ts1.length) ts2).2)) := by
  refine ⟨?_, ?_, ?_⟩
  · intro hvol
    rw [processSingleQueryStart_histogramQuery]
    unfold nextHq prepareHistogramReq
    simp [hvol]
  · intro hvol
    refine ⟨?_, ?_, ?_⟩
    · rw [processSingleQueryStart_histogramQuery]
      unfold nextHq prepareHistogramReq
      cases hq : st.histogramQuery <;> simp [hvol, hq]
    · intro h hh
      unfold stepReq prepareHistogramReq
      refine ⟨by simp [hvol, hh], rfl, rfl⟩
    · intro hh
      unfold stepReq prepareHistogramReq
      simp [hvol, hh]
  · exact fun ts1 ts2 => runStarts_append env ts1 ts2 st fresh

/-- C10 (witness): a plain logs target stores its built request; a volume
target in a later position reuses it in context mode. -/
theorem claim_C10_side_channel_witness :
    (processSingleQueryStart (mkEnv "explore") initialState 0 plainTarget).1.histogramQuery =
      buildFor (mkEnv "explore") plainTarget ∧
    (processSingleQueryStart (mkEnv "explore")
        (processSingleQueryStart (mkEnv "explore") initialState 0 plainTarget).1 1
        volumeTarget).1.histogramQuery =
      ((processSingleQueryStart (mkEnv "explore") initialState 0
        plainTarget).1.histogramQuery).map applyContextMode :=
  ⟨(claim_C10_side_channel (mkEnv "explore") initialState 0 plainTarget).1 rfl,
   ((claim_C10_side_channel (mkEnv "explore")
      (processSingleQueryStart (mkEnv "explore") initialState 0 plainTarget).1 1
      volumeTarget).2.1 rfl).1⟩

/-- C2 (code-bug evidence): the volume/dashboard pipeline completion never
touches the instance state at all — it has no `finally` — so a dashboard
target started through the cache (which sets `isFetching := true`) still has
`isFetching = true` after its resolution completes; the direct logs pipeline,
whose `finally` is present, clears the flag on success and on failure
alike. -/
theorem claim_C2_isFetching_code_bug :
    (∀ (env : Env) (st : DsState) (t : MyQuery) (rd : Option ReqData)
       (backend : ReqData → HistResp) (out : VolumeOutcome),
       (processVolumeOrDashboardQuery env st t rd backend out).1 = st) ∧
    ((processSingleQueryStart (mkEnv "dashboard") initialState 0
      plainTarget).1).cachedLogsQuery.isFetching = true ∧
    (processSingleQueryStart (mkEnv "dashboard") initialState 0 plainTarget).2 =
      StartAction.fetch Route.volume (buildFor (mkEnv "dashboard") plainTarget) 0 ∧
    (processVolumeOrDashboardQuery (mkEnv "dashboard")
        (processSingleQueryStart (mkEnv "dashboard") initialState 0 plainTarget).1
        plainTarget
        (actionReqData
          (processSingleQueryStart (mkEnv "dashboard") initialState 0 plainTarget).2)
        backendFix
        (VolumeOutcome.partitionOk twoPartitionResp)).1.cachedLogsQuery.isFetching =
      true ∧
    (processLogsQuery (mkEnv "explore")
        (processSingleQueryStart (mkEnv "explore") initialState 0 plainTarget).1
        plainTarget 0 (LogsOutcome.success [])).1.cachedLogsQuery.isFetching = false ∧
    (processLogsQuery (mkEnv "explore")
        (processSingleQueryStart (mkEnv "explore") initialState 0 plainTarget).1
        plainTarget 0
        (LogsOutcome.failure httpErrFix)).1.cachedLogsQuery.isFetching = false := by
  refine ⟨?_, rfl, rfl, rfl, rfl, rfl⟩
  intro env st t rd backend out
  cases rd <;> cases out <;> rfl

/-- Replacing the slot a target uses makes `slotFor` return it. -/
theorem slotFor_setSlot_same (st : DsState) (r : String) (s : CacheSlot) :
    slotFor (setSlot st r s) r = s := by
  unfold slotFor setSlot
  by_cases h : isVolumeRefId r = true <;> simp [h]

/-- Updating the side-channel field does not change either slot. -/
theorem slotFor_hqSet (st : DsState) (x : Option ReqData) (r : String) :
    slotFor { st with histogramQuery := x } r = slotFor st r := by
  unfold slotFor
  split <;> rfl

/-- After `handleCacheManagement`, the target's slot holds the computed key
with a live deferred handle, and the reported handle is the slot's. -/
theorem hcm_slot (st : DsState) (t : MyQuery) (rd : Option ReqData) (fresh : Nat) :
    (slotFor (handleCacheManagement st t rd fresh).1 t.refId).requestQuery =
      some (cacheKeyOf rd t) ∧
    (slotFor (handleCacheManagement st t rd fresh).1 t.refId).hasData = true ∧
    (slotFor (handleCacheManagement st t rd fresh).1 t.refId).handle =
      (handleCacheManagement st t rd fresh).2.2 := by
  unfold handleCacheManagement
  split
  · rename_i hcond
    exact ⟨hcond.1, hcond.2, rfl⟩
  · simp [slotFor_setSlot_same]

/-- The context-mode mutation is idempotent. -/
theorem applyContextMode_idem (r : ReqData) :
    applyContextMode (applyContextMode r) = applyContextMode r := rfl

/-- After one start, the side channel has stabilized: a second resolution of
the same target uses the same request and leaves the side channel as is. -/
theorem stepReq_nextHq_stable (env : Env) (hq : Option ReqData) (t : MyQuery) :
    stepReq env (nextHq env hq t) t = stepReq env hq t ∧
    nextHq env (nextHq env hq t) t = nextHq env hq t := by
  unfold stepReq nextHq prepareHistogramReq
  by_cases hvol : isVolumeRefId t.refId = false
  · simp [hvol]
  · cases hq with
    | none => simp [hvol]
    | some r => simp [hvol, applyContextMode_idem]

/-- The cache key a target computes is stable once the side channel has seen
that target. -/
theorem stepKeyOf_stable (env : Env) (hq : Option ReqData) (t : MyQuery) :
    stepKeyOf env (nextHq env hq t) t = stepKeyOf env hq t := by
  unfold stepKeyOf
  rw [(stepReq_nextHq_stable env hq t).1]

/-- After a target's synchronous start — hit or miss — its slot holds the
computed key, a live handle, and that handle is the one the caller got. -/
theorem processSingleQueryStart_slot (env : Env) (st : DsState) (fresh : Nat)
    (t : MyQuery) :
    (slotFor (processSingleQueryStart env st fresh t).1 t.refId).requestQuery =
      some (stepKeyOf env st.histogramQuery t) ∧
    (slotFor (processSingleQueryStart env st fresh t).1 t.refId).hasData = true ∧
    (slotFor (processSingleQueryStart env st fresh t).1 t.refId).handle =
      actionHandle (processSingleQueryStart env st fresh t).2 := by
  unfold processSingleQueryStart
  rcases hmatch : handleCacheManagement
      { st with histogramQuery := nextHq env st.histogramQuery t } t
      (stepReq env st.histogramQuery t) fresh with ⟨st2, b, hh⟩
  have hs := hcm_slot { st with histogramQuery := nextHq env st.histogramQuery t } t
    (stepReq env st.histogramQuery t) fresh
  rw [hmatch] at hs
  cases b <;> simpa [hmatch] using hs

/-- When the target's slot already holds the key it is about to compute (with
a live handle), the start attaches to the slot — no fetch, state changed only
in the side channel. -/
theorem processSingleQueryStart_cached (env : Env) (st : DsState) (fresh : Nat)
    (t : MyQuery)
    (h1 : (slotFor st t.refId).requestQuery = some (stepKeyOf env st.histogramQuery t))
    (h2 : (slotFor st t.refId).hasData = true) :
    processSingleQueryStart env st fresh t =
      ({ st with histogramQuery := nextHq env st.histogramQuery t },
       StartAction.cached (slotFor st t.refId).handle) := by
  unfold processSingleQueryStart handleCacheManagement
  rw [slotFor_hqSet]
  rw [if_pos ⟨h1, h2⟩]

/-- Every caller in a run of targets whose computed keys all equal the key a
slot already holds (with a live handle) attaches to that slot's handle; no
fetch is started. -/
theorem runStarts_attached (env : Env) : ∀ (ts : List MyQuery) (st : DsState)
    (fresh : Nat) (k : CacheKey) (h : Nat),
    (∀ k2 ∈ runKeys env st.histogramQuery ts, k2 = k) →
    (slotFor st k.type).requestQuery = some k →
    (slotFor st k.type).hasData = true →
    (slotFor st k.type).handle = h →
    ∀ a ∈ (runStarts env st fresh ts).2, a = StartAction.cached h := by
  intro ts
  induction ts with
  | nil =>
    intro st fresh k h _ _ _ _ a ha
    simp [runStarts] at ha
  | cons t tl ih =>
    intro st fresh k h hkeys hrq hhd hhandle a ha
    have hkey : stepKeyOf env st.histogramQuery t = k :=
      hkeys _ (by simp [runKeys])
    have htype : k.type = t.refId := by
      rw [← hkey]
      rfl
    rw [htype] at hrq hhd hhandle
    have hcached := processSingleQueryStart_cached env st fresh t
      (by rw [hkey]; exact hrq) hhd
    have hrun : (runStarts env st fresh (t :: tl)).2 =
        (processSingleQueryStart env st fresh t).2 ::
          (runStarts env (processSingleQueryStart env st fresh t).1 (fresh + 1) tl).2 :=
      rfl
    rw [hrun] at ha
    rcases List.mem_cons.mp ha with ha1 | ha2
    · rw [ha1, hcached, hhandle]
    · have hst : (processSingleQueryStart env st fresh t).1 =
          { st with histogramQuery := nextHq env st.histogramQuery t } := by
        rw [hcached]
      refine ih (processSingleQueryStart env st fresh t).1 (fresh + 1) k h ?_ ?_ ?_ ?_
        a ha2
      · rw [processSingleQueryStart_histogramQuery]
        exact fun k2 hk2 => hkeys k2 (List.mem_cons_of_mem _ hk2)
      · rw [htype, hst, slotFor_hqSet]
        exact hrq
      · rw [htype, hst, slotFor_hqSet]
        exact hhd
      · rw [htype, hst, slotFor_hqSet]
        exact hhandle

/-- A start that issues a fetch uses the freshly allocated handle. -/
theorem start_fetch_handle (env : Env) (st : DsState) (fresh : Nat) (t : MyQuery) :
    isFetchAction (processSingleQueryStart env st fresh t).2 = true →
    actionHandle (processSingleQueryStart env st fresh t).2 = fresh := by
  unfold processSingleQueryStart
  rcases hmatch : handleCacheManagement
      { st with histogramQuery := nextHq env st.histogramQuery t } t
      (stepReq env st.histogramQuery t) fresh with ⟨st2, b, hh⟩
  have hmiss : b = false → hh = fresh := by
    intro hb
    subst hb
    unfold handleCacheManagement at hmatch
    split at hmatch
    · exact absurd (congrArg (fun p => p.2.1) hmatch) (by simp)
    · exact (congrArg (fun p => p.2.2) hmatch).symm
  cases b
  · intro _
    simp [hmatch, actionHandle, hmiss rfl]
  · intro hf
    simp [hmatch, isFetchAction] at hf

/-- Unfolding `fetchHandles` over a cons cell. -/
theorem fetchHandles_cons (a : StartAction) (l : List StartAction) :
    fetchHandles (a :: l) =
      if isFetchAction a = true then actionHandle a :: fetchHandles l
      else fetchHandles l := by
  unfold fetchHandles
  cases ha : isFetchAction a <;> simp [List.filter_cons, ha]

/-- Every fetch issued by a run uses a handle at least as large as the first
fresh handle. -/
theorem fetchHandles_lb (env : Env) : ∀ (ts : List MyQuery) (st : DsState)
    (fresh : Nat), ∀ x ∈ fetchHandles (runStarts env st fresh ts).2, fresh ≤ x := by
  intro ts
  induction ts with
  | nil =>
    intro st fresh x hx
    simp [runStarts, fetchHandles] at hx
  | cons t tl ih =>
    intro st fresh x hx
    have hrun : (runStarts env st fresh (t :: tl)).2 =
        (processSingleQueryStart env st fresh t).2 ::
          (runStarts env (processSingleQueryStart env st fresh t).1 (fresh + 1) tl).2 :=
      rfl
    rw [hrun, fetchHandles_cons] at hx
    by_cases hf : isFetchAction (processSingleQueryStart env st fresh t).2 = true
    · rw [if_pos hf] at hx
      rcases List.mem_cons.mp hx with hx1 | hx2
      · rw [hx1, start_fetch_handle env st fresh t hf]
      · exact Nat.le_of_succ_le (ih _ (fresh + 1) x hx2)
    · rw [if_neg hf] at hx
      exact Nat.le_of_succ_le (ih _ (fresh + 1) x hx)

/-- The handles of the fetches issued by a run are strictly increasing. -/
theorem fetchHandles_pairwise (env : Env) : ∀ (ts : List MyQuery) (st : DsState)
    (fresh : Nat),
    (fetchHandles (runStarts env st fresh ts).2).Pairwise (· < ·) := by
  intro ts
  induction ts with
  | nil =>
    intro st fresh
    simp [runStarts, fetchHandles]
  | cons t tl ih =>
    intro st fresh
    have hrun : (runStarts env st fresh (t :: tl)).2 =
        (processSingleQueryStart env st fresh t).2 ::
          (runStarts env (processSingleQueryStart env st fresh t).1 (fresh + 1) tl).2 :=
      rfl
    rw [hrun, fetchHandles_cons]
    by_cases hf : isFetchAction (processSingleQueryStart env st fresh t).2 = true
    · rw [if_pos hf]
      refine List.Pairwise.cons ?_ (ih _ (fresh + 1))
      intro b hb
      rw [start_fetch_handle env st fresh t hf]
      exact Nat.lt_of_succ_le (fetchHandles_lb env tl _ (fresh + 1) b hb)
    · rw [if_neg hf]
      exact ih _ (fresh + 1)

/-- C1: single-flight per slot.  For any run of callers whose computed cache
keys all coincide (the premise states it over the run's key trace), at most
one backend fetch is issued; every caller — the first included — ends up
attached to one and the same deferred handle, so one resolution delivers the
same frame to all of them; and over any run whatsoever the fetches issued use
pairwise distinct handles, so no slot incarnation ever carries more than one
in-flight fetch. -/
theorem claim_C1_single_flight (env : Env) (st : DsState) (fresh : Nat)
    (t0 : MyQuery) (ts : List MyQuery)
    (hkeys : ∀ k ∈ runKeys env st.histogramQuery (t0 :: ts),
      k = stepKeyOf env st.histogramQuery t0) :
    ((runStarts env st fresh (t0 :: ts)).2.filter isFetchAction).length ≤ 1 ∧
    (∀ a ∈ (runStarts env st fresh (t0 :: ts)).2,
      actionHandle a = actionHandle (processSingleQueryStart env st fresh t0).2) ∧
    (∀ (resolution : Nat → Frame), ∀ a1 ∈ (runStarts env st fresh (t0 :: ts)).2,
      ∀ a2 ∈ (runStarts env st fresh (t0 :: ts)).2,
      resolution (actionHandle a1) = resolution (actionHandle a2)) ∧
    (∀ (ts2 : List MyQuery) (st2 : DsState) (fresh2 : Nat),
      (fetchHandles (runStarts env st2 fresh2 ts2).2).Nodup) := by
  have hslot := processSingleQueryStart_slot env st fresh t0
  have htail : ∀ a ∈ (runStarts env (processSingleQueryStart env st fresh t0).1
      (fresh + 1) ts).2,
      a = StartAction.cached (actionHandle (processSingleQueryStart env st fresh t0).2) := by
    refine runStarts_attached env ts (processSingleQueryStart env st fresh t0).1
      (fresh + 1) (stepKeyOf env st.histogramQuery t0)
      (actionHandle (processSingleQueryStart env st fresh t0).2) ?_ ?_ ?_ ?_
    · rw [processSingleQueryStart_histogramQuery]
      exact fun k2 hk2 => hkeys k2 (List.mem_cons_of_mem _ hk2)
    · exact hslot.1
    · exact hslot.2.1
    · exact hslot.2.2
  have hrun : (runStarts env st fresh (t0 :: ts)).2 =
      (processSingleQueryStart env st fresh t0).2 ::
        (runStarts env (processSingleQueryStart env st fresh t0).1 (fresh + 1) ts).2 :=
    rfl
  have hhandles : ∀ a ∈ (runStarts env st fresh (t0 :: ts)).2,
      actionHandle a = actionHandle (processSingleQueryStart env st fresh t0).2 := by
    intro a ha
    rw [hrun] at ha
    rcases List.mem_cons.mp ha with ha1 | ha2
    · rw [ha1]
    · rw [htail a ha2]
      rfl
  refine ⟨?_, hhandles, ?_, ?_⟩
  · rw [hrun]
    have hrest : ((runStarts env (processSingleQueryStart env st fresh t0).1
        (fresh + 1) ts).2.filter isFetchAction) = [] := by
      rw [List.filter_eq_nil_iff]
      intro a ha
      rw [htail a ha]
      simp [isFetchAction]
    rw [List.filter_cons]
    cases hf : isFetchAction (processSingleQueryStart env st fresh t0).2 <;>
      simp [hrest, hf]
  · intro resolution a1 ha1 a2 ha2
    rw [hhandles a1 ha1, hhandles a2 ha2]
  · intro ts2 st2 fresh2
    exact List.Pairwise.imp (fun h => Nat.ne_of_lt h)
      (fetchHandles_pairwise env ts2 st2 fresh2)

/-- C1 (witness): three identical callers from the initial state — the key
trace is constant, one fetch is issued, and all three callers share handle
0. -/
theorem claim_C1_single_flight_witness :
    (∀ k ∈ runKeys (mkEnv "explore") initialState.histogramQuery
        [plainTarget, plainTarget, plainTarget],
      k = stepKeyOf (mkEnv "explore") initialState.histogramQuery plainTarget) ∧
    ((runStarts (mkEnv "explore") initialState 0
      [plainTarget, plainTarget, plainTarget]).2.filter isFetchAction).length ≤ 1 ∧
    (∀ a ∈ (runStarts (mkEnv "explore") initialState 0
        [plainTarget, plainTarget, plainTarget]).2,
      actionHandle a =
        actionHandle (processSingleQueryStart (mkEnv "explore") initialState 0
          plainTarget).2) :=
  ⟨by decide,
   (claim_C1_single_flight (mkEnv "explore") initialState 0 plainTarget
     [plainTarget, plainTarget] (by decide)).1,
   (claim_C1_single_flight (mkEnv "explore") initialState 0 plainTarget
     [plainTarget, plainTarget] (by decide)).2.1⟩

end OOPlugin
